import Mathlib

/-!
Verification of the cricvox match-state engine: a shallow embedding of
`app/engine/state_manager.py` (the per-ball state accumulator),
`app/engine/logic_engine.py` (narrative classification and context notes),
`app/engine/pivot_detector.py` (pivot detection and equation shift) and the
derived properties of `MatchState` from `app/models.py`.

Python integers become `Nat`/`Int`; Python float arithmetic on run rates
becomes exact rational arithmetic with Python's round-half-to-even rounding;
Python dicts (which preserve insertion order) become association lists; and
optional/absent values become `Option`.

Naming note: the checked-in `app/models.py` snapshot still uses the older
"batsman" field names (`BatsmanStats`, `batsmen`, `dismissal_batsman`,
`non_striker`), while `state_manager.py`, the logic engine, and the tests
all use the "batter" names (`BatterStats`, `batters`, `dismissal_batter`,
`non_batter`).  This embedding follows the engine/tests naming; the field
semantics are those of `models.py`.
-/

namespace Cricvox

/-! ### Generic helpers -/

/-- Python `round` / `"%.nf"` rounding of a rational to an integer:
round half to even (banker's rounding). -/
def roundHalfEven (q : ℚ) : ℤ :=
  let f := q.floor
  let r := q - (f : ℚ)
  if r < 1/2 then f
  else if 1/2 < r then f + 1
  else if f % 2 = 0 then f else f + 1

/-- Python `round(q, d)`: round to `d` decimal places, half to even. -/
def pyRound (q : ℚ) (d : ℕ) : ℚ :=
  (roundHalfEven (q * (10 : ℚ) ^ d) : ℚ) / (10 : ℚ) ^ d

/-- Absolute value on ℚ, written so that it computes by kernel
reduction. -/
def qabs (q : ℚ) : ℚ :=
  if q < 0 then -q else q

/-- Render a rational that carries at most two decimal places the way Python
prints such a float: integer part, a dot, then one or two digits (at least
one digit, trailing zero in the second place dropped). -/
def fmtQ (q : ℚ) : String :=
  let neg := q < 0
  let a := qabs q
  let ip := a.floor.toNat
  let cents := ((a - ip) * 100).floor.toNat
  let d1 := cents / 10
  let d2 := cents % 10
  let frac := if d2 = 0 then toString d1 else toString d1 ++ toString d2
  (if neg then "-" else "") ++ toString ip ++ "." ++ frac

/-- Python `"{:.1f}".format(q)`: exactly one decimal digit, half-even. -/
def fmt1f (q : ℚ) : String :=
  let r := pyRound q 1
  let neg := r < 0
  let a := qabs r
  let ip := a.floor.toNat
  let d1 := ((a - ip) * 10).floor.toNat
  (if neg then "-" else "") ++ toString ip ++ "." ++ toString d1

/-- Python `"{:.0f}".format(q)`: rounded to an integer, half-even. -/
def fmt0f (q : ℚ) : String :=
  toString (roundHalfEven q)

/-! #### IEEE-754 binary64 model

Python's run-rate arithmetic is double-precision floating point.  Where a
claim's truth value turns on the float rounding (the equation-shift 0.5
emission boundary, and the required run rate feeding it), the arithmetic
is modelled exactly: a binary64 value is the rational it denotes, `fl`
rounds a rational to the nearest binary64 (53-bit significand, ties to
even), each arithmetic operation is the correctly-rounded IEEE operation
(exact rational result, then `fl`), and CPython's `round(x, n)` is the
correctly-rounded decimal rounding of the exact value of `x` (ties to
even), converted back to the nearest double.  Overflow and subnormals are
outside the engine's magnitude range and are not modelled. -/

/-- Helper for `bitLen`, structurally recursive on fuel. -/
def bitLenAux : ℕ → ℕ → ℕ
  | 0, _ => 0
  | fuel + 1, n => if n = 0 then 0 else bitLenAux fuel (n / 2) + 1

/-- Bit length of a natural number: `bitLen 0 = 0` and
`2 ^ (bitLen n - 1) ≤ n < 2 ^ bitLen n` for `n ≥ 1`. -/
def bitLen (n : ℕ) : ℕ :=
  bitLenAux n n

/-- `2 ^ z` as a rational, for an integer exponent. -/
def pow2 : ℤ → ℚ
  | .ofNat k => ((2 ^ k : ℕ) : ℚ)
  | .negSucc k => 1 / ((2 ^ (k + 1) : ℕ) : ℚ)

/-- Round a rational to the nearest IEEE-754 binary64 value: pick the
exponent `E` with `2 ^ E ≤ |q| < 2 ^ (E + 1)`, scale the significand into
`[2^52, 2^53)`, round it to the nearest integer with ties to even, and
scale back.  (Validated against CPython doubles on the operations the
engine performs.) -/
def fl (q : ℚ) : ℚ :=
  if q = 0 then 0
  else
    let a := qabs q
    let e1 : ℤ := (bitLen a.num.natAbs : ℤ) - (bitLen a.den : ℤ)
    let E : ℤ := if pow2 e1 ≤ a then e1 else e1 - 1
    let m : ℤ := roundHalfEven (a * pow2 (52 - E))
    let r : ℚ := (m : ℚ) * pow2 (E - 52)
    if q < 0 then -r else r

/-- Correctly-rounded binary64 division (`a / b` on Python floats). -/
def fdiv (a b : ℚ) : ℚ :=
  fl (a / b)

/-- Correctly-rounded binary64 subtraction (`a - b` on Python floats). -/
def fsub (a b : ℚ) : ℚ :=
  fl (a - b)

/-- CPython `round(x, d)` on a double `x`: correctly-rounded decimal
rounding (ties to even) of the exact value of `x`, returned as the
nearest double. -/
def pyRoundFloat (x : ℚ) (d : ℕ) : ℚ :=
  fl (pyRound x d)

/-- Python `repr` of a list of numbers, e.g. `[0, 1, 4]`. -/
def listRepr (l : List ℕ) : String :=
  "[" ++ String.intercalate (", ") (l.map toString) ++ "]"

/-- Python truthiness of an optional string: `None` and `""` are falsy. -/
def truthy : Option String → Bool
  | some s => s ≠ ""
  | none => false

/-- Python `opt or default` on strings (`ball.dismissal_batter or ball.batter`). -/
def orElseStr (o : Option String) (dflt : String) : String :=
  match o with
  | some s => if s = "" then dflt else s
  | none => dflt

/-- Python f-string rendering of an optional string (`None` prints as "None"). -/
def optStr : Option String → String
  | some s => s
  | none => "None"

/-- Python `l[-n:]`: the last `n` elements (the whole list when shorter). -/
def lastN (l : List α) (n : ℕ) : List α :=
  l.drop (l.length - n)

/-- Does `pat` occur at the head of `cs`? -/
def leadMatch : List Char → List Char → Bool
  | [], _ => true
  | _ :: _, [] => false
  | p :: ps, c :: cs => p = c && leadMatch ps cs

/-- Does `pat` occur anywhere inside `cs`? -/
def subMatch (pat : List Char) : List Char → Bool
  | [] => leadMatch pat []
  | c :: cs => leadMatch pat (c :: cs) || subMatch pat cs

/-- Substring test on strings. -/
def containsSub (s pat : String) : Bool :=
  subMatch pat.data s.data

/-! #### Python string splitting and `int(str)` parsing

`str.split(".")` and `int` are modelled structurally over character lists
(so that they compute by kernel reduction).  `int` accepts optional
surrounding whitespace, an optional sign, and a non-empty run of decimal
digits in which single underscores may appear strictly between digits.
Anything else raises `ValueError`, which the source catches and turns
into `False`; here parsing returns `none`. -/

/-- Helper for `splitDot`: split off fields at each '.'. -/
def splitDotAux : List Char → List Char → List String
  | [], acc => [String.mk acc.reverse]
  | c :: cs, acc =>
      if c = '.' then String.mk acc.reverse :: splitDotAux cs []
      else splitDotAux cs (c :: acc)

/-- Python `s.split(".")`: e.g. "1.2" ↦ ["1","2"], "" ↦ [""],
"1.2.3" ↦ ["1","2","3"]. -/
def splitDot (s : String) : List String :=
  splitDotAux s.data []

/-- Strip leading and trailing whitespace from a character list. -/
def trimChars (cs : List Char) : List Char :=
  ((cs.dropWhile Char.isWhitespace).reverse.dropWhile
    Char.isWhitespace).reverse

/-- After an initial digit: the rest of a digit run, where an underscore must
be followed by a digit. -/
def digitRunRest : List Char → Bool
  | [] => true
  | '_' :: c :: cs => c.isDigit && digitRunRest cs
  | '_' :: [] => false
  | c :: cs => c.isDigit && digitRunRest cs

/-- A full digit run: non-empty, starts with a digit. -/
def digitRun : List Char → Bool
  | [] => false
  | c :: cs => c.isDigit && digitRunRest cs

/-- Numeric value of a digit run (underscores skipped). -/
def digitsVal (cs : List Char) : ℕ :=
  cs.foldl (fun acc c => if c = '_' then acc else acc * 10 + (c.toNat - '0'.toNat)) 0

/-- Python `int(s)` for a decimal string: `none` models `ValueError`. -/
def pyIntParse (s : String) : Option ℤ :=
  let t := trimChars s.data
  match t with
  | '-' :: rest => if digitRun rest then some (-(digitsVal rest : ℤ)) else none
  | '+' :: rest => if digitRun rest then some (digitsVal rest : ℤ) else none
  | rest => if digitRun rest then some (digitsVal rest : ℤ) else none

/-! ### Data model (`app/models.py`) -/

/-- The closed set of narrative branches (`NarrativeBranch` in `models.py`). -/
inductive NarrativeBranch where
  | routine
  | boundary_momentum
  | wicket_drama
  | pressure_builder
  | over_transition
  | extra_gift
deriving DecidableEq, Repr

/-- One ball delivery (`BallEvent`). -/
structure BallEvent where
  over : ℕ := 0
  ball : ℕ := 1
  batter : String
  bowler : String
  runs : ℕ := 0
  extras : ℕ := 0
  extras_type : Option String := none
  is_wicket : Bool := false
  wicket_type : Option String := none
  dismissal_batter : Option String := none
  is_boundary : Bool := false
  is_six : Bool := false
  non_batter : Option String := none
deriving DecidableEq, Repr

/-- Record of a wicket falling (`FallOfWicket`). -/
structure FallOfWicket where
  wicket_number : ℕ
  batter : String
  batter_runs : ℕ
  team_score : ℕ
  overs : String
  bowler : String
  how : Option String := none
  partner : Option String := none
deriving DecidableEq, Repr

/-- Per-batter statistics (`BatterStats`). -/
structure BatterStats where
  name : String
  runs : ℕ := 0
  balls_faced : ℕ := 0
  fours : ℕ := 0
  sixes : ℕ := 0
  dots : ℕ := 0
  is_out : Bool := false
  position : ℕ := 0
deriving DecidableEq, Repr

/-- Per-bowler statistics (`BowlerStats`). -/
structure BowlerStats where
  name : String
  balls_bowled : ℕ := 0
  runs_conceded : ℕ := 0
  wickets : ℕ := 0
  maidens : ℕ := 0
  dots : ℕ := 0
  fours_conceded : ℕ := 0
  sixes_conceded : ℕ := 0
  wides : ℕ := 0
  noballs : ℕ := 0
deriving DecidableEq, Repr

/-- The full current match state (`MatchState`).  The Python dicts
`batters`/`bowlers` preserve insertion order, so they are association
lists here. -/
structure MatchState where
  batting_team : String
  bowling_team : String
  target : ℤ
  total_runs : ℕ := 0
  wickets : ℕ := 0
  overs_completed : ℕ := 0
  balls_in_current_over : ℕ := 0
  total_balls_bowled : ℕ := 0
  last_6_balls : List ℕ := []
  consecutive_dots : ℕ := 0
  current_over_runs : ℕ := 0
  current_over_wickets : ℕ := 0
  batters : List (String × BatterStats) := []
  bowlers : List (String × BowlerStats) := []
  current_batter : Option String := none
  current_bowler : Option String := none
  non_batter : Option String := none
  previous_batter : Option String := none
  previous_bowler : Option String := none
  last_commentary : String := ""
  commentary_history : List String := []
  partnership_runs : ℕ := 0
  partnership_balls : ℕ := 0
  partnership_number : ℕ := 1
  fall_of_wickets : List FallOfWicket := []
  over_runs_history : List ℕ := []
  total_fours : ℕ := 0
  total_sixes : ℕ := 0
  total_extras : ℕ := 0
  total_wides : ℕ := 0
  total_noballs : ℕ := 0
  balls_since_last_boundary : ℕ := 0
  balls_since_last_wicket : ℕ := 0
  batting_order : List String := []
  is_new_bowler : Bool := false
  is_new_over : Bool := false
  is_strike_change : Bool := false
  is_new_batter : Bool := false
  new_batter_name : Option String := none
  previous_over_summary : Option String := none
deriving DecidableEq, Repr

/-! ### Association-list operations (insertion-ordered dict model) -/

/-- `k in d` for a Python dict. -/
def hasKey : List (String × α) → String → Bool
  | [], _ => false
  | (n, _) :: rest, k => n == k || hasKey rest k

/-- `d[k]` lookup, first (unique) matching key. -/
def lookupKey : List (String × α) → String → Option α
  | [], _ => none
  | (n, v) :: rest, k => if n = k then some v else lookupKey rest k

/-- In-place mutation of `d[k]` (no-op when the key is absent). -/
def bumpFirst (k : String) (f : α → α) : List (String × α) → List (String × α)
  | [] => []
  | (n, v) :: rest =>
      if n = k then (n, f v) :: rest else (n, v) :: bumpFirst k f rest

/-! ### Derived (computed-on-read) properties of `MatchState` -/

namespace MatchState

/-- `runs_needed = max(target - total_runs, 0)`. -/
def runs_needed (s : MatchState) : ℤ :=
  max (s.target - s.total_runs) 0

/-- `balls_remaining = max(120 - total_balls_bowled, 0)` (T20 format). -/
def balls_remaining (s : MatchState) : ℕ :=
  120 - s.total_balls_bowled

/-- `overs_display`, e.g. "12.4". -/
def overs_display (s : MatchState) : String :=
  toString s.overs_completed ++ "." ++ toString s.balls_in_current_over

/-- Current run rate. -/
def crr (s : MatchState) : ℚ :=
  let overs : ℚ := (s.total_balls_bowled : ℚ) / 6
  if overs = 0 then 0 else pyRound ((s.total_runs : ℚ) / overs) 2

/-- Required run rate (0 with no balls remaining), computed as the Python
program does on binary64 doubles: divide, divide, then `round(·, 2)`. -/
def rrr (s : MatchState) : ℚ :=
  let overs_remaining : ℚ := fdiv (s.balls_remaining : ℚ) 6
  if overs_remaining ≤ 0 then 0
  else pyRoundFloat (fdiv (s.runs_needed : ℚ) overs_remaining) 2

/-- Match phase from the completed-over count. -/
def match_phase (s : MatchState) : String :=
  let total_overs := s.overs_completed + (if 0 < s.balls_in_current_over then 1 else 0)
  if total_overs ≤ 6 then "powerplay"
  else if total_overs ≤ 15 then "middle"
  else "death"

/-- Runs scored in overs 1-6. -/
def powerplay_runs (s : MatchState) : ℕ :=
  (s.over_runs_history.take 6).sum

/-- Run rate in the last 3 completed overs. -/
def run_rate_last_3_overs (s : MatchState) : ℚ :=
  if s.over_runs_history.length < 3 then 0
  else pyRound (((lastN s.over_runs_history 3).sum : ℚ) / 3) 2

/-- Scoring momentum label over the last four completed overs. -/
def scoring_momentum (s : MatchState) : String :=
  if s.over_runs_history.length < 4 then "early"
  else
    let recent_2 : ℚ := ((lastN s.over_runs_history 2).sum : ℚ) / 2
    let previous_2 : ℚ := (((lastN s.over_runs_history 4).take 2).sum : ℚ) / 2
    let diff := recent_2 - previous_2
    if 3 ≤ diff then "accelerating"
    else if diff ≤ -3 then "decelerating"
    else "steady"

/-- Overall dot-ball percentage of the innings. -/
def dot_ball_percentage (s : MatchState) : ℚ :=
  let total_dots :=
    ((s.batters.filter (fun p => !p.2.is_out || 0 < p.2.dots)).map (fun p => p.2.dots)).sum
  if s.total_balls_bowled = 0 then 0
  else pyRound ((total_dots : ℚ) / s.total_balls_bowled * 100) 1

/-- What percentage of total runs came from boundaries. -/
def boundary_runs_percentage (s : MatchState) : ℚ :=
  let boundary_runs := s.total_fours * 4 + s.total_sixes * 6
  if s.total_runs = 0 then 0
  else pyRound ((boundary_runs : ℚ) / s.total_runs * 100) 1

/-- No boundary for 18+ balls. -/
def is_boundary_drought (s : MatchState) : Bool :=
  18 ≤ s.balls_since_last_boundary

/-- `_recent_wicket_cluster`: did the 3rd-most-recent wicket fall within 18
legal balls of the current position?  Parse failures (`ValueError` /
`IndexError` in the source) yield `false`. -/
def recentWicketCluster (s : MatchState) : Bool :=
  if s.fall_of_wickets.length < 3 then false
  else
    match s.fall_of_wickets.reverse.get? 2 with
    | none => false
    | some fow =>
        match splitDot fow.overs with
        | p0 :: p1 :: _ =>
            match pyIntParse p0, pyIntParse p1 with
            | some a, some b =>
                (s.total_balls_bowled : ℤ) - (a * 6 + b) ≤ 18
            | _, _ => false
        | _ => false

/-- `is_collapse`: 3+ wickets in the last 18 balls. -/
def is_collapse (s : MatchState) : Bool :=
  if s.fall_of_wickets.length < 3 then false
  else 3 ≤ s.wickets && recentWicketCluster s

end MatchState

namespace BatterStats

/-- Strike rate, rounded to 2 decimals. -/
def strike_rate (b : BatterStats) : ℚ :=
  if b.balls_faced = 0 then 0
  else pyRound ((b.runs : ℚ) / b.balls_faced * 100) 2

/-- Dot-ball percentage, rounded to 1 decimal. -/
def dot_percentage (b : BatterStats) : ℚ :=
  if b.balls_faced = 0 then 0
  else pyRound ((b.dots : ℚ) / b.balls_faced * 100) 1

/-- `40 <= runs < 50`. -/
def approaching_fifty (b : BatterStats) : Bool :=
  40 ≤ b.runs && b.runs < 50

/-- `90 <= runs < 100`. -/
def approaching_hundred (b : BatterStats) : Bool :=
  90 ≤ b.runs && b.runs < 100

end BatterStats

namespace BowlerStats

/-- Overs display, e.g. "3.2". -/
def overs_display (bw : BowlerStats) : String :=
  toString (bw.balls_bowled / 6) ++ "." ++ toString (bw.balls_bowled % 6)

/-- Economy rate, rounded to 2 decimals. -/
def economy (bw : BowlerStats) : ℚ :=
  let overs : ℚ := (bw.balls_bowled : ℚ) / 6
  if overs = 0 then 0 else pyRound ((bw.runs_conceded : ℚ) / overs) 2

/-- Figures string, e.g. "2/31 (3.2)". -/
def figures_str (bw : BowlerStats) : String :=
  toString bw.wickets ++ "/" ++ toString bw.runs_conceded ++ " (" ++
    bw.overs_display ++ ")"

end BowlerStats

/-! ### The accumulator (`StateManager.update`)

The Python method mutates `self.state` through a sequence of commented
sections.  Each section becomes one pure phase `MatchState → MatchState`
below (record updates written per-field, which is semantics-preserving
flattening of the sequential mutations), and `StateManager.update` is their
composition in source order. -/

/-- The `extras_type` strings used by the engine. -/
def wideT : String := "wide"

/-- The no-ball extras type. -/
def noballT : String := "noball"

/-- The run-out wicket type (not credited to the bowler). -/
def runOutT : String := "run_out"

namespace BallEvent

/-- `ball.extras_type not in ("wide", "noball")`: a legal delivery. -/
def isLegal (b : BallEvent) : Bool :=
  !(b.extras_type == some wideT || b.extras_type == some noballT)

/-- `runs == 0 and extras == 0 and not is_wicket`: a dot ball. -/
def isDot (b : BallEvent) : Bool :=
  b.runs == 0 && b.extras == 0 && !b.is_wicket

end BallEvent

/-- `_detect_transitions`: recompute the per-ball transition flags from the
previous ball's actors; on the first ball of the match (no bowler yet) all
flags stay reset. -/
def detectTransitions (b : BallEvent) (s : MatchState) : MatchState :=
  let newBowler : Bool :=
    match s.current_bowler with
    | none => false
    | some cb => b.bowler != cb
  let strikeChange : Bool :=
    match s.current_bowler, s.current_batter with
    | some _, some cbat => (cbat != "") && (b.batter != cbat)
    | _, _ => false
  let nbFromStriker : Bool := !(hasKey s.batters b.batter)
  let nbFromNon : Bool :=
    match b.non_batter with
    | some nb => (nb != "") && !(hasKey s.batters nb)
    | none => false
  { s with
    is_new_bowler := newBowler,
    is_new_over := newBowler,
    is_strike_change := strikeChange,
    is_new_batter :=
      match s.current_bowler with
      | none => false
      | some _ => nbFromStriker || nbFromNon,
    new_batter_name :=
      match s.current_bowler with
      | none => none
      | some _ =>
          if nbFromNon then b.non_batter
          else if nbFromStriker then some b.batter
          else none }

/-- Runs & extras section: add runs plus extras to the total and keep the
extras breakdown. -/
def applyRuns (b : BallEvent) (s : MatchState) : MatchState :=
  { s with
    total_runs := s.total_runs + (b.runs + b.extras),
    total_extras :=
      if 0 < b.extras then s.total_extras + b.extras else s.total_extras,
    total_wides :=
      if 0 < b.extras ∧ b.extras_type = some wideT
      then s.total_wides + b.extras else s.total_wides,
    total_noballs :=
      if 0 < b.extras ∧ b.extras_type = some noballT
      then s.total_noballs + b.extras else s.total_noballs }

/-- Ball counting: wides/no-balls do not count as legal deliveries. -/
def applyBallCount (b : BallEvent) (s : MatchState) : MatchState :=
  { s with
    balls_in_current_over :=
      s.balls_in_current_over + (if b.isLegal then 1 else 0),
    total_balls_bowled :=
      s.total_balls_bowled + (if b.isLegal then 1 else 0) }

/-- Momentum tracking: rolling window of the last 6 legal deliveries. -/
def applyMomentum (b : BallEvent) (s : MatchState) : MatchState :=
  let l := s.last_6_balls ++ [b.runs]
  { s with
    last_6_balls :=
      if b.isLegal then (if 6 < l.length then l.drop 1 else l)
      else s.last_6_balls }

/-- Consecutive dots counter. -/
def applyDots (b : BallEvent) (s : MatchState) : MatchState :=
  { s with
    consecutive_dots := if b.isDot then s.consecutive_dots + 1 else 0 }

/-- Current over stats. -/
def applyOverStats (b : BallEvent) (s : MatchState) : MatchState :=
  { s with
    current_over_runs := s.current_over_runs + (b.runs + b.extras),
    current_over_wickets :=
      s.current_over_wickets + (if b.is_wicket then 1 else 0) }

/-- Boundary & drought tracking. -/
def applyBoundary (b : BallEvent) (s : MatchState) : MatchState :=
  { s with
    balls_since_last_boundary :=
      if b.is_boundary || b.is_six then 0
      else if b.isLegal then s.balls_since_last_boundary + 1
      else s.balls_since_last_boundary,
    total_fours := if b.is_boundary then s.total_fours + 1 else s.total_fours,
    total_sixes := if b.is_six then s.total_sixes + 1 else s.total_sixes }

/-- Balls since last wicket (legal balls only). -/
def applySinceWicket (b : BallEvent) (s : MatchState) : MatchState :=
  { s with
    balls_since_last_wicket :=
      s.balls_since_last_wicket + (if b.isLegal then 1 else 0) }

/-- Batter stats: create-or-fetch the striker's record (assigning the next
batting position on first sight) and accumulate this ball. -/
def applyBatterStats (b : BallEvent) (pos : ℕ) (s : MatchState) :
    MatchState × ℕ :=
  let present := hasKey s.batters b.batter
  let batters0 :=
    if present then s.batters
    else s.batters ++ [(b.batter, { name := b.batter, position := pos })]
  let order0 := if present then s.batting_order else s.batting_order ++ [b.batter]
  let pos1 := if present then pos else pos + 1
  let batters1 := bumpFirst b.batter (fun bt =>
    { bt with
      balls_faced := bt.balls_faced + (if b.isLegal then 1 else 0),
      dots := bt.dots + (if b.isLegal && b.isDot then 1 else 0),
      runs := bt.runs + b.runs,
      fours := bt.fours + (if b.is_boundary then 1 else 0),
      sixes := bt.sixes + (if b.is_six then 1 else 0) }) batters0
  ({ s with batters := batters1, batting_order := order0 }, pos1)

/-- Track the non-striker too: create a record on first sight. -/
def applyNonBatterReg (b : BallEvent) (pos : ℕ) (s : MatchState) :
    MatchState × ℕ :=
  let isNew : Bool :=
    match b.non_batter with
    | some nb => (nb != "") && !(hasKey s.batters nb)
    | none => false
  let nb := optStr b.non_batter
  ({ s with
     batters :=
       if isNew then s.batters ++ [(nb, { name := nb, position := pos })]
       else s.batters,
     batting_order :=
       if isNew then s.batting_order ++ [nb] else s.batting_order },
   if isNew then pos + 1 else pos)

/-- Bowler stats: create-or-fetch and accumulate; run-outs are not credited
to the bowler. -/
def applyBowlerStats (b : BallEvent) (s : MatchState) : MatchState :=
  let bowlers0 :=
    if hasKey s.bowlers b.bowler then s.bowlers
    else s.bowlers ++ [(b.bowler, { name := b.bowler })]
  let bowlers1 := bumpFirst b.bowler (fun bw =>
    { bw with
      runs_conceded := bw.runs_conceded + (b.runs + b.extras),
      balls_bowled := bw.balls_bowled + (if b.isLegal then 1 else 0),
      dots := bw.dots + (if b.isLegal && b.isDot then 1 else 0),
      fours_conceded := bw.fours_conceded + (if b.is_boundary then 1 else 0),
      sixes_conceded := bw.sixes_conceded + (if b.is_six then 1 else 0),
      wides := bw.wides + (if b.extras_type == some wideT then b.extras else 0),
      noballs :=
        bw.noballs + (if b.extras_type == some noballT then b.extras else 0),
      wickets :=
        bw.wickets +
          (if b.is_wicket && !(b.wicket_type == some runOutT) then 1 else 0) })
    bowlers0
  { s with bowlers := bowlers1 }

/-- Partnership tracking (balls only on legal deliveries). -/
def applyPartnership (b : BallEvent) (s : MatchState) : MatchState :=
  { s with
    partnership_balls := s.partnership_balls + (if b.isLegal then 1 else 0),
    partnership_runs := s.partnership_runs + (b.runs + b.extras) }

/-- Wickets: count, mark the dismissed batter out, log the fall of wicket
and reset the partnership / wicket-distance counters. -/
def applyWicket (b : BallEvent) (s : MatchState) : MatchState :=
  let dismissed := orElseStr b.dismissal_batter b.batter
  let batters1 :=
    if hasKey s.batters dismissed then
      bumpFirst dismissed (fun bt => { bt with is_out := true }) s.batters
    else s.batters
  let active :=
    (batters1.filter (fun p => !p.2.is_out && p.1 != dismissed)).map
      (fun p => p.1)
  let entry : FallOfWicket :=
    { wicket_number := s.wickets + 1
      batter := dismissed
      batter_runs :=
        match lookupKey batters1 dismissed with
        | some bt => bt.runs
        | none => 0
      team_score := s.total_runs
      overs := s.overs_display
      bowler := b.bowler
      how := b.wicket_type
      partner := active.head? }
  { s with
    wickets := if b.is_wicket then s.wickets + 1 else s.wickets,
    batters := if b.is_wicket then batters1 else s.batters,
    fall_of_wickets :=
      if b.is_wicket then s.fall_of_wickets ++ [entry]
      else s.fall_of_wickets,
    partnership_runs := if b.is_wicket then 0 else s.partnership_runs,
    partnership_balls := if b.is_wicket then 0 else s.partnership_balls,
    partnership_number :=
      if b.is_wicket then s.partnership_number + 1 else s.partnership_number,
    balls_since_last_wicket :=
      if b.is_wicket then 0 else s.balls_since_last_wicket }

/-- Over transition: on the 6th legal ball, credit a maiden if due, record
the over, build the previous-over summary, and reset the in-over counters. -/
def applyOverTransition (b : BallEvent) (s : MatchState) : MatchState :=
  let bowlers1 :=
    if s.current_over_runs = 0 ∧ hasKey s.bowlers b.bowler then
      bumpFirst b.bowler (fun bw => { bw with maidens := bw.maidens + 1 })
        s.bowlers
    else s.bowlers
  let figures :=
    match lookupKey bowlers1 b.bowler with
    | some bw => bw.figures_str
    | none => ""
  let summary :=
    "Over " ++ toString s.overs_completed ++ ": " ++
      toString s.current_over_runs ++ " runs, " ++
      toString s.current_over_wickets ++ " wicket(s). Bowler: " ++
      b.bowler ++ " — figures: " ++ figures
  { s with
    bowlers := if 6 ≤ s.balls_in_current_over then bowlers1 else s.bowlers,
    over_runs_history :=
      if 6 ≤ s.balls_in_current_over then
        s.over_runs_history ++ [s.current_over_runs]
      else s.over_runs_history,
    previous_over_summary :=
      if 6 ≤ s.balls_in_current_over then some summary
      else s.previous_over_summary,
    overs_completed :=
      if 6 ≤ s.balls_in_current_over then s.overs_completed + 1
      else s.overs_completed,
    balls_in_current_over :=
      if 6 ≤ s.balls_in_current_over then 0 else s.balls_in_current_over,
    current_over_runs :=
      if 6 ≤ s.balls_in_current_over then 0 else s.current_over_runs,
    current_over_wickets :=
      if 6 ≤ s.balls_in_current_over then 0 else s.current_over_wickets }

/-- Update the previous/current batter, bowler and the non-striker (explicit
value if provided, otherwise inferred as the other not-out tracked batter). -/
def applyTrackers (b : BallEvent) (s : MatchState) : MatchState :=
  let active :=
    (s.batters.filter (fun p => !p.2.is_out && p.1 != b.batter)).map
      (fun p => p.1)
  { s with
    previous_batter := s.current_batter,
    previous_bowler := s.current_bowler,
    current_batter := some b.batter,
    current_bowler := some b.bowler,
    non_batter := if truthy b.non_batter then b.non_batter else active.head? }

/-- The stateful manager: the live `MatchState` plus the next batting-order
position counter. -/
structure StateManager where
  next_batting_position : ℕ
  state : MatchState
deriving DecidableEq, Repr

/-- `StateManager.__init__(batting_team, bowling_team, target)`. -/
def initManager (batting bowling : String) (target : ℤ) : StateManager :=
  { next_batting_position := 1,
    state := { batting_team := batting, bowling_team := bowling,
               target := target } }

/-- `StateManager.update(ball)`: process one ball event. -/
def StateManager.update (m : StateManager) (b : BallEvent) : StateManager :=
  let s1 := detectTransitions b m.state
  let s2 := applyRuns b s1
  let s3 := applyBallCount b s2
  let s4 := applyMomentum b s3
  let s5 := applyDots b s4
  let s6 := applyOverStats b s5
  let s7 := applyBoundary b s6
  let s8 := applySinceWicket b s7
  let r9 := applyBatterStats b m.next_batting_position s8
  let r10 := applyNonBatterReg b r9.2 r9.1
  let s11 := applyBowlerStats b r10.1
  let s12 := applyPartnership b s11
  let s13 := applyWicket b s12
  let s14 := applyOverTransition b s13
  let s15 := applyTrackers b s14
  { next_batting_position := r10.2, state := s15 }

/-- Replay a whole ordered delivery sequence through a fresh manager. -/
def replay (batting bowling : String) (target : ℤ) (ds : List BallEvent) :
    StateManager :=
  ds.foldl StateManager.update (initManager batting bowling target)

/-! ### Pivot detection and equation shift (`app/engine/pivot_detector.py`) -/

/-- `detect_pivot(state, ball)`: is this ball a high-leverage moment? -/
def detect_pivot (s : MatchState) (b : BallEvent) : Bool :=
  let setBatterGone : Bool :=
    match lookupKey s.batters (orElseStr b.dismissal_batter b.batter) with
    | some bt => decide (30 ≤ bt.runs)
    | none => false
  let secondLastBig : Bool :=
    match s.last_6_balls.reverse.get? 1 with
    | some v => decide (4 ≤ v)
    | none => false
  if b.is_six ∧ 12 < s.rrr then true
  else if b.is_boundary ∧ s.match_phase = "death" ∧
      (3/2 : ℚ) < (s.runs_needed : ℚ) / ((max s.balls_remaining 1 : ℕ) : ℚ) then
    true
  else if b.is_wicket ∧ setBatterGone = true then true
  else if b.is_wicket ∧ 7 ≤ s.wickets then true
  else if (b.is_boundary = true ∨ b.is_six = true) ∧ 2 ≤ s.last_6_balls.length ∧
      secondLastBig = true then true
  else if 0 < b.extras ∧ s.balls_remaining ≤ 12 ∧ s.runs_needed ≤ 20 then true
  else false

/-- `calculate_equation_shift(state, ball)`: how the chase equation moved on
this ball.  The source returns the string "From X per over down to Y" (or
`None`); here the result is its numeric payload, the pair
(required rate as reconstructed before the ball, required rate after).
All rate arithmetic is binary64, as in the Python program: the division
and subtraction are correctly-rounded float operations and the comparison
against the (exactly representable) literal `0.5` is on doubles. -/
def calculate_equation_shift (s : MatchState) (b : BallEvent) :
    Option (ℚ × ℚ) :=
  let total := b.runs + b.extras
  if total ≤ 1 then none
  else
    let balls_before : ℕ := s.balls_remaining + (if b.isLegal then 1 else 0)
    let runs_before : ℤ := s.runs_needed + (total : ℤ)
    let overs_before : ℚ := fdiv (balls_before : ℚ) 6
    if overs_before ≤ 0 then none
    else
      let rrr_before := pyRoundFloat (fdiv (runs_before : ℚ) overs_before) 1
      let rrr_after := s.rrr
      if qabs (fsub rrr_before rrr_after) < 1/2 then none
      else some (rrr_before, rrr_after)

/-! ### Narrative classifier (`app/engine/logic_engine.py`) -/

/-- `LogicEngine._classify_branch`: priority chain assigning the branch. -/
def classify_branch (s : MatchState) (b : BallEvent) : NarrativeBranch :=
  let is_over_end : Bool :=
    (s.balls_in_current_over == 0) && decide (0 < s.overs_completed) &&
      b.isLegal
  if b.is_wicket then .wicket_drama
  else if (0 < b.extras ∧
      (b.extras_type = some wideT ∨ b.extras_type = some noballT)) ∧
      ((0 < s.target ∧ s.runs_needed ≤ 30) ∨ s.match_phase = "death") then
    .extra_gift
  else if b.is_boundary || b.is_six then .boundary_momentum
  else if 3 ≤ s.consecutive_dots then .pressure_builder
  else if 0 < s.target ∧ 12 < s.rrr ∧ b.runs ≤ 1 then .pressure_builder
  else if is_over_end then .over_transition
  else .routine

/-- `_ordinal(n)`: "1st", "2nd", "3rd", "11th", ... -/
def ordinal (n : ℕ) : String :=
  let suffix :=
    if 11 ≤ n % 100 ∧ n % 100 ≤ 13 then "th"
    else if n % 10 = 1 then "st"
    else if n % 10 = 2 then "nd"
    else if n % 10 = 3 then "rd"
    else "th"
  toString n ++ suffix

/-- `_assess_match_situation`: the chase-only decision table producing a
closed set of situation labels (empty string for a non-chase innings or a
normal contest). -/
def assess_match_situation (s : MatchState) : String :=
  if s.target ≤ 0 then ""
  else
    let rrr := s.rrr
    let wickets := s.wickets
    let balls := s.balls_remaining
    let needed := s.runs_needed
    let rrrS := fmt1f rrr
    let neededS := toString needed
    let ballsS := toString balls
    if needed ≤ 0 then "MATCH WON by batting team"
    else if 10 ≤ wickets then "ALL OUT — batting team loses"
    else if 8 ≤ wickets ∧ 15 < rrr then
      "GAME OVER — virtually impossible, tail exposed, need " ++ rrrS ++ " RPO"
    else if 7 ≤ wickets ∧ 18 < rrr then
      "GAME OVER — need " ++ rrrS ++ " RPO with only " ++
        toString ((10 : ℤ) - wickets) ++ " wickets left"
    else if 6 ≤ wickets ∧ 15 < rrr then
      "DEEP TROUBLE — need " ++ rrrS ++ " RPO with " ++ toString wickets ++
        " down, odds stacked against batting team"
    else if 20 < rrr ∧ balls ≤ 12 then
      "GAME OVER — need " ++ neededS ++ " off " ++ ballsS ++
        " balls, mathematically near-impossible"
    else if 15 < rrr ∧ balls ≤ 18 then
      "LAST GASP — need " ++ neededS ++ " off " ++ ballsS ++ " balls at " ++
        rrrS ++ " RPO, need boundaries every ball"
    else if 12 < rrr ∧ 5 ≤ wickets then
      "UPHILL — need " ++ rrrS ++ " RPO with " ++ toString wickets ++
        " down, batting team in serious trouble"
    else if 12 < rrr ∧ wickets < 5 then
      "TOUGH — need " ++ rrrS ++ " RPO but wickets in hand, need big hitting"
    else if 9 ≤ rrr ∧ rrr ≤ 12 ∧ balls ≤ 30 then
      "TIGHT — need " ++ neededS ++ " off " ++ ballsS ++ " balls at " ++
        rrrS ++ " RPO, game in the balance"
    else if rrr < 6 ∧ wickets ≤ 4 then
      "COMFORTABLE — batting team cruising at " ++ rrrS ++
        " RPO with wickets in hand"
    else if rrr < 8 ∧ wickets ≤ 3 then
      "IN CONTROL — batting team on track, " ++ rrrS ++ " RPO required"
    else if balls ≤ 6 then
      if needed ≤ 6 then
        "LAST OVER THRILLER — need " ++ neededS ++ " off " ++ ballsS ++
          " balls, anyone's game!"
      else if needed ≤ 12 then
        "LAST OVER — need " ++ neededS ++ " off " ++ ballsS ++
          " balls, need boundaries"
      else
        "LAST OVER — need " ++ neededS ++ " off " ++ ballsS ++
          " balls, virtually impossible"
    else ""

/-! #### Context-note fragments (`_build_context`, sections 1-9) -/

/-- Section 1: bowler/batter transition announcements. -/
def noteTransitions (s : MatchState) (b : BallEvent) : List String :=
  (if s.is_new_over && s.is_new_bowler then
     [ "NEW OVER: " ++ b.bowler ++ " comes into the attack" ] ++
       (if truthy s.previous_over_summary then
          [ "Previous: " ++ optStr s.previous_over_summary ] else [])
   else if s.is_new_bowler then
     [ "Bowling change: " ++ b.bowler ++ " replaces " ++
         optStr s.previous_bowler ]
   else []) ++
  (if s.is_new_batter && truthy s.new_batter_name then
     let nm := optStr s.new_batter_name
     let pos :=
       match lookupKey s.batters nm with
       | some bt => bt.position
       | none => s.batting_order.length + 1
     [ "NEW BATTER: " ++ nm ++ " walks in at #" ++ toString pos ]
   else if s.is_strike_change && !s.is_new_over then
     [ "Strike rotated: " ++ b.batter ++ " now facing (was " ++
         optStr s.previous_batter ++ ")" ]
   else [])

/-- Section 2: phase, current-over progress, match-situation label. -/
def noteSituation (s : MatchState) : List String :=
  [ "Phase: " ++ s.match_phase ] ++
  (if 0 < s.balls_in_current_over then
     [ "This over so far: " ++ toString s.current_over_runs ++ "/" ++
         toString s.balls_in_current_over ++ "b" ]
   else []) ++
  (let sit := assess_match_situation s
   if sit ≠ "" then [ "MATCH SITUATION: " ++ sit ] else [])

/-- Section 3: current striker's form/milestones and the non-striker. -/
def noteBatter (s : MatchState) (b : BallEvent) : List String :=
  (match lookupKey s.batters b.batter with
   | none => []
   | some bt =>
       (if bt.balls_faced = 0 then
          [ b.batter ++ " on strike, yet to face a delivery" ]
        else if bt.runs = 0 ∧ 0 < bt.balls_faced then
          [ b.batter ++ " struggling: 0(" ++ toString bt.balls_faced ++ ")" ]
        else
          let desc := b.batter ++ ": " ++ toString bt.runs ++ "(" ++
            toString bt.balls_faced ++ ") SR " ++ fmtQ bt.strike_rate
          let desc :=
            if 0 < bt.fours ∨ 0 < bt.sixes then
              desc ++ " [" ++ toString bt.fours ++ "x4, " ++
                toString bt.sixes ++ "x6]"
            else desc
          [ desc ]) ++
       (if 10 ≤ bt.balls_faced ∧ 60 ≤ bt.dot_percentage then
          [ b.batter ++ " dot% = " ++ fmtQ bt.dot_percentage ++
              "% — struggling to rotate" ]
        else []) ++
       (if bt.approaching_fifty then
          [ "MILESTONE: " ++ b.batter ++ " approaching 50 (on " ++
              toString bt.runs ++ ")" ]
        else if bt.approaching_hundred then
          [ "MILESTONE: " ++ b.batter ++ " approaching 100 (on " ++
              toString bt.runs ++ ")" ]
        else [])) ++
  (if truthy b.non_batter then
     match lookupKey s.batters (optStr b.non_batter) with
     | some ns =>
         if ns.is_out then []
         else
           [ "Non-batter " ++ optStr b.non_batter ++ ": " ++
               toString ns.runs ++ "(" ++ toString ns.balls_faced ++ ")" ]
     | none => []
   else [])

/-- Section 4: current bowler's figures with notable flags. -/
def noteBowler (s : MatchState) (b : BallEvent) : List String :=
  match lookupKey s.bowlers b.bowler with
  | none => []
  | some bw =>
      let desc := "Bowler " ++ b.bowler ++ ": " ++ bw.figures_str ++
        " econ " ++ fmtQ bw.economy
      let desc :=
        if 6 ≤ bw.dots then desc ++ ", " ++ toString bw.dots ++ " dots"
        else desc
      let desc :=
        if 3 ≤ bw.fours_conceded + bw.sixes_conceded then
          desc ++ ", leaked " ++ toString bw.fours_conceded ++ "x4 " ++
            toString bw.sixes_conceded ++ "x6"
        else desc
      let desc :=
        if 2 ≤ bw.wides + bw.noballs then
          desc ++ ", " ++ toString bw.wides ++ "w " ++
            toString bw.noballs ++ "nb extras"
        else desc
      [ desc ]

/-- Section 5: active partnership, suppressed on wicket balls. -/
def notePartnership (s : MatchState) (b : BallEvent) : List String :=
  if b.is_wicket = false ∧ 0 < s.partnership_balls then
    [ ordinal s.partnership_number ++ " wicket partnership: " ++
        toString s.partnership_runs ++ " off " ++
        toString s.partnership_balls ++ "b" ]
  else []

/-- Section 6: wicket-ball context (dismissed batter, stand broken,
collapse, quick follow-up, recent falls). -/
def noteWicket (s : MatchState) (b : BallEvent) : List String :=
  if b.is_wicket then
    let dismissed := orElseStr b.dismissal_batter b.batter
    (match lookupKey s.batters dismissed with
     | some bd =>
         [ dismissed ++ " out for " ++ toString bd.runs ++ "(" ++
             toString bd.balls_faced ++ ") [" ++ toString bd.fours ++
             "x4, " ++ toString bd.sixes ++ "x6]" ] ++
         (if 30 ≤ bd.runs then
            [ "Set batter gone — was looking dangerous" ] else []) ++
         (if s.wickets ≤ 3 then
            [ "Top-order wicket, #" ++ toString s.wickets ++ " down" ]
          else if 7 ≤ s.wickets then
            [ "Tail exposed, only " ++ toString ((10 : ℤ) - s.wickets) ++
                " left" ]
          else [])
     | none => []) ++
    (if 10 < s.partnership_runs then
       [ ordinal s.partnership_number ++ " wkt stand broken at " ++
           toString s.partnership_runs ]
     else []) ++
    (if s.is_collapse then [ "COLLAPSE: 3+ wickets in last 3 overs!" ]
     else []) ++
    (if s.balls_since_last_wicket ≤ 6 ∧ 2 ≤ s.fall_of_wickets.length then
       [ "Back-to-back blow! Only " ++ toString s.balls_since_last_wicket ++
           "b since last wicket" ]
     else []) ++
    (if s.fall_of_wickets ≠ [] then
       [ "FOW: " ++ String.intercalate (", ")
           ((lastN s.fall_of_wickets 3).map (fun f =>
              toString f.wicket_number ++ "/" ++ toString f.team_score ++
                "(" ++ f.overs ++ ")")) ]
     else [])
  else []

/-- Section 7: momentum and scoring patterns, skipped on wicket balls. -/
def noteMomentum (s : MatchState) (b : BallEvent) : List String :=
  if b.is_wicket then []
  else
    (if 6 ≤ s.last_6_balls.length then
       [ "Last 6 balls: " ++ toString s.last_6_balls.sum ++ " runs " ++
           listRepr s.last_6_balls ]
     else []) ++
    (if 3 ≤ s.consecutive_dots then
       [ toString s.consecutive_dots ++ " consecutive dot balls" ]
     else []) ++
    (if s.is_boundary_drought then
       [ "BOUNDARY DROUGHT: " ++ toString s.balls_since_last_boundary ++
           " balls without a boundary!" ]
     else if 12 ≤ s.balls_since_last_boundary then
       [ "No boundary for " ++ toString s.balls_since_last_boundary ++
           " balls" ]
     else []) ++
    (if s.scoring_momentum = "accelerating" ∨
        s.scoring_momentum = "decelerating" then
       [ "Scoring is " ++ s.scoring_momentum ] else []) ++
    (if 0 < s.run_rate_last_3_overs then
       [ "Last 3 overs: " ++ fmtQ s.run_rate_last_3_overs ++
           " RPO (vs match CRR " ++ fmtQ s.crr ++ ")" ]
     else [])

/-- Section 8: selective innings stats, skipped on wicket balls. -/
def noteInningsStats (s : MatchState) (b : BallEvent) : List String :=
  if b.is_wicket then []
  else
    (if 0 < s.total_fours + s.total_sixes ∧
        (b.is_boundary = true ∨ b.is_six = true) then
       [ "Innings boundaries: " ++ toString s.total_fours ++ "x4, " ++
           toString s.total_sixes ++ "x6 (" ++
           fmt0f s.boundary_runs_percentage ++ "% of runs from boundaries)" ]
     else []) ++
    (if 5 ≤ s.total_extras then
       [ "Extras so far: " ++ toString s.total_extras ++ " (" ++
           toString s.total_wides ++ "w, " ++ toString s.total_noballs ++
           "nb)" ]
     else []) ++
    (if s.match_phase ≠ "powerplay" ∧ 50 ≤ s.dot_ball_percentage then
       [ "Innings dot%: " ++ fmtQ s.dot_ball_percentage ++ "%" ]
     else []) ++
    (if s.match_phase = "middle" ∧ s.overs_completed = 6 then
       [ "Powerplay finished: " ++ toString s.powerplay_runs ++ " runs" ]
     else [])

/-- Section 9: death-overs chase equation reminder. -/
def noteEquation (s : MatchState) : List String :=
  if s.match_phase = "death" ∧ 0 < s.target then
    [ "Need " ++ toString s.runs_needed ++ " from " ++
        toString s.balls_remaining ++ " balls (RRR " ++ fmtQ s.rrr ++ ")" ]
  else []

/-- `_build_context`: the ordered list of selected context notes. -/
def build_context_notes (s : MatchState) (b : BallEvent) : List String :=
  noteTransitions s b ++ noteSituation s ++ noteBatter s b ++
    noteBowler s b ++ notePartnership s b ++ noteWicket s b ++
    noteMomentum s b ++ noteInningsStats s b ++ noteEquation s

/-- The joined context-notes string (`". ".join(notes)`). -/
def build_context (s : MatchState) (b : BallEvent) : String :=
  String.intercalate (". ") (build_context_notes s b)

/-- Output of the logic engine for a single ball (`LogicResult`). -/
structure LogicResult where
  branch : NarrativeBranch
  is_pivot : Bool
  equation_shift : Option (ℚ × ℚ)
  context_notes : String
deriving DecidableEq, Repr

/-- `LogicEngine.analyze(state, ball)`. -/
def analyze (s : MatchState) (b : BallEvent) : LogicResult :=
  { branch := classify_branch s b,
    is_pivot := detect_pivot s b,
    equation_shift := calculate_equation_shift s b,
    context_notes := build_context s b }

/-! ### Helper lemmas: sums over the batter map -/

/-- Total of the `runs` fields over all per-batter records. -/
def batterRunsSum (l : List (String × BatterStats)) : ℕ :=
  (l.map (fun p => p.2.runs)).sum

theorem batterRunsSum_append (l : List (String × BatterStats)) (k : String)
    (bt : BatterStats) :
    batterRunsSum (l ++ [(k, bt)]) = batterRunsSum l + bt.runs := by
  simp [batterRunsSum]

theorem hasKey_append_self (l : List (String × α)) (k : String) (v : α) :
    hasKey (l ++ [(k, v)]) k = true := by
  induction l with
  | nil => simp [hasKey]
  | cons p rest ih =>
      cases p with
      | mk n w => simp [hasKey, ih]

theorem batterRunsSum_bumpFirst_add (k : String)
    (f : BatterStats → BatterStats) (r : ℕ)
    (hf : ∀ v, (f v).runs = v.runs + r) :
    ∀ l : List (String × BatterStats), hasKey l k = true →
      batterRunsSum (bumpFirst k f l) = batterRunsSum l + r := by
  intro l
  induction l with
  | nil => intro h; simp [hasKey] at h
  | cons p rest ih =>
      intro h
      cases p with
      | mk n v =>
          by_cases hp : n = k
          · simp [bumpFirst, hp, batterRunsSum, hf v]
            omega
          · have hrest : hasKey rest k = true := by
              simpa [hasKey, hp] using h
            simp [bumpFirst, hp, batterRunsSum] at ih ⊢
            rw [ih hrest]
            omega

theorem batterRunsSum_bumpFirst_keep (k : String)
    (f : BatterStats → BatterStats)
    (hf : ∀ v, (f v).runs = v.runs) :
    ∀ l : List (String × BatterStats),
      batterRunsSum (bumpFirst k f l) = batterRunsSum l := by
  intro l
  induction l with
  | nil => rfl
  | cons p rest ih =>
      cases p with
      | mk n v =>
          by_cases hp : n = k
          · simp [bumpFirst, hp, batterRunsSum, hf v]
          · simp [bumpFirst, hp, batterRunsSum] at ih ⊢
            omega

/-! ### Per-ball effect of `update` on each tracked quantity -/

theorem update_total_runs (m : StateManager) (b : BallEvent) :
    (m.update b).state.total_runs =
      m.state.total_runs + (b.runs + b.extras) := rfl

theorem update_tbb (m : StateManager) (b : BallEvent) :
    (m.update b).state.total_balls_bowled =
      m.state.total_balls_bowled + (if b.isLegal then 1 else 0) := rfl

theorem update_cdots (m : StateManager) (b : BallEvent) :
    (m.update b).state.consecutive_dots =
      if b.isDot then m.state.consecutive_dots + 1 else 0 := by
  simp only [StateManager.update, applyTrackers, applyOverTransition,
    applyWicket, applyPartnership, applyBowlerStats, applyNonBatterReg,
    applyBatterStats, applySinceWicket, applyBoundary, applyOverStats,
    applyDots, applyMomentum, applyBallCount, applyRuns, detectTransitions]

theorem update_wickets (m : StateManager) (b : BallEvent) :
    (m.update b).state.wickets =
      if b.is_wicket then m.state.wickets + 1 else m.state.wickets := by
  simp only [StateManager.update, applyTrackers, applyOverTransition,
    applyWicket, applyPartnership, applyBowlerStats, applyNonBatterReg,
    applyBatterStats, applySinceWicket, applyBoundary, applyOverStats,
    applyDots, applyMomentum, applyBallCount, applyRuns, detectTransitions]

theorem update_pruns (m : StateManager) (b : BallEvent) :
    (m.update b).state.partnership_runs =
      if b.is_wicket then 0
      else m.state.partnership_runs + (b.runs + b.extras) := by
  simp only [StateManager.update, applyTrackers, applyOverTransition,
    applyWicket, applyPartnership, applyBowlerStats, applyNonBatterReg,
    applyBatterStats, applySinceWicket, applyBoundary, applyOverStats,
    applyDots, applyMomentum, applyBallCount, applyRuns, detectTransitions]

theorem update_bico (m : StateManager) (b : BallEvent) :
    (m.update b).state.balls_in_current_over =
      if 6 ≤ m.state.balls_in_current_over + (if b.isLegal then 1 else 0)
      then 0
      else m.state.balls_in_current_over + (if b.isLegal then 1 else 0) := by
  simp only [StateManager.update, applyTrackers, applyOverTransition,
    applyWicket, applyPartnership, applyBowlerStats, applyNonBatterReg,
    applyBatterStats, applySinceWicket, applyBoundary, applyOverStats,
    applyDots, applyMomentum, applyBallCount, applyRuns, detectTransitions]

theorem update_overs (m : StateManager) (b : BallEvent) :
    (m.update b).state.overs_completed =
      if 6 ≤ m.state.balls_in_current_over + (if b.isLegal then 1 else 0)
      then m.state.overs_completed + 1
      else m.state.overs_completed := by
  simp only [StateManager.update, applyTrackers, applyOverTransition,
    applyWicket, applyPartnership, applyBowlerStats, applyNonBatterReg,
    applyBatterStats, applySinceWicket, applyBoundary, applyOverStats,
    applyDots, applyMomentum, applyBallCount, applyRuns, detectTransitions]

theorem update_total_extras (m : StateManager) (b : BallEvent) :
    (m.update b).state.total_extras = m.state.total_extras + b.extras := by
  simp only [StateManager.update, applyTrackers, applyOverTransition,
    applyWicket, applyPartnership, applyBowlerStats, applyNonBatterReg,
    applyBatterStats, applySinceWicket, applyBoundary, applyOverStats,
    applyDots, applyMomentum, applyBallCount, applyRuns, detectTransitions]
  split <;> omega

theorem update_total_wides (m : StateManager) (b : BallEvent) :
    (m.update b).state.total_wides =
      m.state.total_wides +
        (if b.extras_type = some wideT then b.extras else 0) := by
  simp only [StateManager.update, applyTrackers, applyOverTransition,
    applyWicket, applyPartnership, applyBowlerStats, applyNonBatterReg,
    applyBatterStats, applySinceWicket, applyBoundary, applyOverStats,
    applyDots, applyMomentum, applyBallCount, applyRuns, detectTransitions]
  rcases Nat.eq_zero_or_pos b.extras with he | he
  · simp [he]
  · by_cases hw : b.extras_type = some wideT
    · simp [hw, he]
    · simp [hw, he]

theorem update_total_noballs (m : StateManager) (b : BallEvent) :
    (m.update b).state.total_noballs =
      m.state.total_noballs +
        (if b.extras_type = some noballT then b.extras else 0) := by
  simp only [StateManager.update, applyTrackers, applyOverTransition,
    applyWicket, applyPartnership, applyBowlerStats, applyNonBatterReg,
    applyBatterStats, applySinceWicket, applyBoundary, applyOverStats,
    applyDots, applyMomentum, applyBallCount, applyRuns, detectTransitions]
  rcases Nat.eq_zero_or_pos b.extras with he | he
  · simp [he]
  · by_cases hw : b.extras_type = some noballT
    · simp [hw, he]
    · simp [hw, he]

theorem update_fow_map (m : StateManager) (b : BallEvent) :
    (m.update b).state.fall_of_wickets.map (fun f => f.wicket_number) =
      if b.is_wicket then
        m.state.fall_of_wickets.map (fun f => f.wicket_number) ++
          [m.state.wickets + 1]
      else m.state.fall_of_wickets.map (fun f => f.wicket_number) := by
  simp only [StateManager.update, applyTrackers, applyOverTransition,
    applyWicket, applyPartnership, applyBowlerStats, applyNonBatterReg,
    applyBatterStats, applySinceWicket, applyBoundary, applyOverStats,
    applyDots, applyMomentum, applyBallCount, applyRuns, detectTransitions]
  by_cases hw : b.is_wicket <;> simp [hw]

theorem update_fow_len (m : StateManager) (b : BallEvent) :
    (m.update b).state.fall_of_wickets.length =
      if b.is_wicket then m.state.fall_of_wickets.length + 1
      else m.state.fall_of_wickets.length := by
  simp only [StateManager.update, applyTrackers, applyOverTransition,
    applyWicket, applyPartnership, applyBowlerStats, applyNonBatterReg,
    applyBatterStats, applySinceWicket, applyBoundary, applyOverStats,
    applyDots, applyMomentum, applyBallCount, applyRuns, detectTransitions]
  by_cases hw : b.is_wicket <;> simp [hw]

theorem batters_applyBatterStats_sum (b : BallEvent) (p : ℕ) (s : MatchState) :
    batterRunsSum (applyBatterStats b p s).1.batters =
      batterRunsSum s.batters + b.runs := by
  unfold applyBatterStats
  dsimp only
  by_cases hp : hasKey s.batters b.batter = true
  · rw [if_pos hp]
    exact batterRunsSum_bumpFirst_add _ _ b.runs (fun v => rfl) _ hp
  · rw [if_neg hp]
    rw [batterRunsSum_bumpFirst_add _ _ b.runs (fun v => rfl) _
      (hasKey_append_self _ _ _), batterRunsSum_append]
    simp

theorem batters_applyNonBatterReg_sum (b : BallEvent) (p : ℕ)
    (s : MatchState) :
    batterRunsSum (applyNonBatterReg b p s).1.batters =
      batterRunsSum s.batters := by
  unfold applyNonBatterReg
  dsimp only
  split
  · rw [batterRunsSum_append]
    simp
  · rfl

theorem batters_applyWicket_sum (b : BallEvent) (s : MatchState) :
    batterRunsSum (applyWicket b s).batters = batterRunsSum s.batters := by
  unfold applyWicket
  dsimp only
  split
  · split
    · exact batterRunsSum_bumpFirst_keep _
        (fun bt => { bt with is_out := true }) (fun v => rfl) _
    · rfl
  · rfl

theorem update_batterRunsSum (m : StateManager) (b : BallEvent) :
    batterRunsSum (m.update b).state.batters =
      batterRunsSum m.state.batters + b.runs := by
  simp only [StateManager.update]
  have h15 : ∀ s, (applyTrackers b s).batters = s.batters := fun _ => rfl
  have h14 : ∀ s, (applyOverTransition b s).batters = s.batters := fun _ => rfl
  have h12 : ∀ s, (applyPartnership b s).batters = s.batters := fun _ => rfl
  have h11 : ∀ s, (applyBowlerStats b s).batters = s.batters := fun _ => rfl
  have h8 : ∀ s, (applySinceWicket b s).batters = s.batters := fun _ => rfl
  have h7 : ∀ s, (applyBoundary b s).batters = s.batters := fun _ => rfl
  have h6 : ∀ s, (applyOverStats b s).batters = s.batters := fun _ => rfl
  have h5 : ∀ s, (applyDots b s).batters = s.batters := fun _ => rfl
  have h4 : ∀ s, (applyMomentum b s).batters = s.batters := fun _ => rfl
  have h3 : ∀ s, (applyBallCount b s).batters = s.batters := fun _ => rfl
  have h2 : ∀ s, (applyRuns b s).batters = s.batters := fun _ => rfl
  have h1 : ∀ s, (detectTransitions b s).batters = s.batters := fun _ => rfl
  rw [h15, h14, batters_applyWicket_sum, h12, h11,
    batters_applyNonBatterReg_sum, batters_applyBatterStats_sum,
    h8, h7, h6, h5, h4, h3, h2, h1]

/-- Induction principle for replays: a property preserved by `update` and
true of the fresh manager holds after any delivery sequence. -/
theorem foldl_update_invariant (P : StateManager → Prop)
    (step : ∀ m b, P m → P (m.update b)) :
    ∀ (ds : List BallEvent) (m : StateManager), P m →
      P (ds.foldl StateManager.update m) := by
  intro ds
  induction ds with
  | nil => intro m h; exact h
  | cons d rest ih => intro m h; exact ih _ (step m d h)

/-- Reachable states keep `balls_in_current_over` in `[0,5]`. -/
theorem replay_bico_le (bt bw : String) (t : ℤ) (ds : List BallEvent) :
    (replay bt bw t ds).state.balls_in_current_over ≤ 5 := by
  refine foldl_update_invariant
    (fun m => m.state.balls_in_current_over ≤ 5) ?_ ds _ ?_
  · intro m b h
    rw [update_bico]
    split_ifs <;> omega
  · exact Nat.zero_le 5

/-! ### Concrete deliveries used by witnesses and counterexamples -/

/-- A plain dot ball. -/
def dotBall : BallEvent := { batter := "A", bowler := "X", non_batter := some ("B") }

/-- A boundary four. -/
def fourBall : BallEvent :=
  { batter := "A", bowler := "X", runs := 4, is_boundary := true,
    non_batter := some ("B") }

/-- A wide worth one extra. -/
def wideBall : BallEvent :=
  { batter := "A", bowler := "X", extras := 1, extras_type := some wideT }

/-- A bowled wicket, no runs. -/
def wicketBall : BallEvent :=
  { batter := "A", bowler := "X", is_wicket := true,
    wicket_type := some ("bowled"), non_batter := some ("B") }

/-! ### The claims -/

/-- Claim C1: for every innings replay (a fresh `StateManager` fed any
sequence of deliveries), after every update call the sum of the `runs`
fields over all per-batter records plus the cumulative `total_extras`
equals the cumulative `total_runs` of the innings. -/
theorem C1_batting_totals_reconcile (bt bw : String) (t : ℤ)
    (ds : List BallEvent) :
    batterRunsSum (replay bt bw t ds).state.batters +
        (replay bt bw t ds).state.total_extras =
      (replay bt bw t ds).state.total_runs := by
  refine foldl_update_invariant
    (fun m => batterRunsSum m.state.batters + m.state.total_extras =
      m.state.total_runs) ?_ ds _ rfl
  intro m b h
  rw [update_batterRunsSum, update_total_extras, update_total_runs]
  omega

/-- Claim C2: after every update call of a replay,
`balls_in_current_over ∈ [0,5]`; a legal delivery advances the legal-ball
counters, resetting `balls_in_current_over` to 0 and incrementing
`overs_completed` by exactly 1 on every 6th legal ball; a wide/no-ball
changes none of `balls_in_current_over`, `total_balls_bowled`,
`overs_completed`, but its run value still goes into `total_runs` and the
extras totals. -/
theorem C2_ball_counting (bt bw : String) (t : ℤ) (ds : List BallEvent)
    (b : BallEvent) :
    ((replay bt bw t ds).update b).state.balls_in_current_over ≤ 5 ∧
    (b.isLegal = true →
      ((replay bt bw t ds).update b).state.total_balls_bowled =
        (replay bt bw t ds).state.total_balls_bowled + 1 ∧
      ((replay bt bw t ds).state.balls_in_current_over = 5 →
        ((replay bt bw t ds).update b).state.balls_in_current_over = 0 ∧
        ((replay bt bw t ds).update b).state.overs_completed =
          (replay bt bw t ds).state.overs_completed + 1) ∧
      ((replay bt bw t ds).state.balls_in_current_over ≠ 5 →
        ((replay bt bw t ds).update b).state.balls_in_current_over =
          (replay bt bw t ds).state.balls_in_current_over + 1 ∧
        ((replay bt bw t ds).update b).state.overs_completed =
          (replay bt bw t ds).state.overs_completed)) ∧
    (b.isLegal = false →
      ((replay bt bw t ds).update b).state.balls_in_current_over =
        (replay bt bw t ds).state.balls_in_current_over ∧
      ((replay bt bw t ds).update b).state.total_balls_bowled =
        (replay bt bw t ds).state.total_balls_bowled ∧
      ((replay bt bw t ds).update b).state.overs_completed =
        (replay bt bw t ds).state.overs_completed ∧
      ((replay bt bw t ds).update b).state.total_runs =
        (replay bt bw t ds).state.total_runs + (b.runs + b.extras) ∧
      ((replay bt bw t ds).update b).state.total_extras =
        (replay bt bw t ds).state.total_extras + b.extras ∧
      ((replay bt bw t ds).update b).state.total_wides =
        (replay bt bw t ds).state.total_wides +
          (if b.extras_type = some wideT then b.extras else 0) ∧
      ((replay bt bw t ds).update b).state.total_noballs =
        (replay bt bw t ds).state.total_noballs +
          (if b.extras_type = some noballT then b.extras else 0)) := by
  have hle := replay_bico_le bt bw t ds
  refine ⟨?_, ?_, ?_⟩
  · rw [update_bico]
    split_ifs <;> omega
  · intro hb
    refine ⟨?_, ?_, ?_⟩
    · rw [update_tbb, hb]
      simp
    · intro h5
      constructor
      · rw [update_bico, hb, h5]
        simp
      · rw [update_overs, hb, h5]
        simp
    · intro h5
      constructor
      · rw [update_bico, hb]
        have : ¬ 6 ≤ (replay bt bw t ds).state.balls_in_current_over + 1 := by
          omega
        simp [this]
      · rw [update_overs, hb]
        have : ¬ 6 ≤ (replay bt bw t ds).state.balls_in_current_over + 1 := by
          omega
        simp [this]
  · intro hb
    have hnotsix : ¬ 6 ≤ (replay bt bw t ds).state.balls_in_current_over +
        (if b.isLegal then 1 else 0) := by
      rw [hb]
      simp
      omega
    refine ⟨?_, ?_, ?_, update_total_runs _ _, update_total_extras _ _,
      update_total_wides _ _, update_total_noballs _ _⟩
    · rw [update_bico, hb]
      simp [hnotsix, hb] at hnotsix ⊢
      omega
    · rw [update_tbb, hb]
      simp
    · rw [update_overs, hb]
      simp
      omega

/-- Witness for C2: on a fresh manager, one legal dot ball advances
`total_balls_bowled`; a wide leaves `overs_completed` unchanged; and a 6th
legal ball (after five dots) increments `overs_completed`. -/
theorem C2_ball_counting_witness :
    ((replay "T" "U" 0 []).update dotBall).state.total_balls_bowled =
        (replay "T" "U" 0 []).state.total_balls_bowled + 1 ∧
    ((replay "T" "U" 0 []).update wideBall).state.overs_completed =
        (replay "T" "U" 0 []).state.overs_completed ∧
    ((replay "T" "U" 0
          [dotBall, dotBall, dotBall, dotBall, dotBall]).update
        dotBall).state.overs_completed =
      (replay "T" "U" 0
          [dotBall, dotBall, dotBall, dotBall, dotBall]).state.overs_completed
        + 1 :=
  ⟨((C2_ball_counting "T" "U" 0 [] dotBall).2.1 rfl).1,
   ((C2_ball_counting "T" "U" 0 [] wideBall).2.2 rfl).2.2.1,
   (((C2_ball_counting "T" "U" 0
        [dotBall, dotBall, dotBall, dotBall, dotBall] dotBall).2.1
      rfl).2.1 (by decide)).2⟩

/-- Claim C3: after every update call of a replay, the fall-of-wicket log
has exactly `wickets` entries and their `wicket_number` fields are exactly
`1, 2, ..., wickets` in order. -/
theorem C3_fow_numbering (bt bw : String) (t : ℤ) (ds : List BallEvent) :
    (replay bt bw t ds).state.fall_of_wickets.length =
        (replay bt bw t ds).state.wickets ∧
    (replay bt bw t ds).state.fall_of_wickets.map (fun f => f.wicket_number) =
      List.range' 1 (replay bt bw t ds).state.wickets := by
  refine foldl_update_invariant
    (fun m => m.state.fall_of_wickets.length = m.state.wickets ∧
      m.state.fall_of_wickets.map (fun f => f.wicket_number) =
        List.range' 1 m.state.wickets) ?_ ds _ ⟨rfl, rfl⟩
  intro m b h
  obtain ⟨h1, h2⟩ := h
  constructor
  · rw [update_fow_len, update_wickets]
    split_ifs <;> omega
  · rw [update_fow_map, update_wickets]
    by_cases hw : b.is_wicket = true
    · simp only [hw, if_pos]
      rw [h2, List.range'_concat]
      simp [Nat.add_comm]
    · simp [hw, h2]

/-- Counterexample to Claim C5 as stated: after two dot balls the counter
is 2, and the claim says a wide or a wicket delivery does not reset it; the
code resets it to 0 on both. -/
theorem C5_counterexample :
    (replay "T" "U" 0 [dotBall, dotBall]).state.consecutive_dots = 2 ∧
    ((replay "T" "U" 0 [dotBall, dotBall]).update
        wideBall).state.consecutive_dots = 0 ∧
    ((replay "T" "U" 0 [dotBall, dotBall]).update
        wicketBall).state.consecutive_dots = 0 :=
  ⟨rfl, rfl, rfl⟩

/-- Claim C5 (amended): the update transition increments the
consecutive-dot counter on every dot ball (runs = 0 AND extras = 0 AND not
a wicket) and resets it to zero on every non-dot ball — including
wide/no-ball deliveries and wicket deliveries. -/
theorem C5_consecutive_dots (m : StateManager) (b : BallEvent) :
    (m.update b).state.consecutive_dots =
      if b.runs = 0 ∧ b.extras = 0 ∧ b.is_wicket = false then
        m.state.consecutive_dots + 1
      else 0 := by
  rw [update_cdots]
  by_cases h : b.runs = 0 ∧ b.extras = 0 ∧ b.is_wicket = false
  · obtain ⟨h1, h2, h3⟩ := h
    simp [BallEvent.isDot, h1, h2, h3]
  · have : b.isDot = false := by
      simp [BallEvent.isDot]
      intro h1 h2
      by_contra hw
      exact h ⟨h1, h2, by simpa using hw⟩
    simp [this, h]

/-- Claim C9: on the very first delivery processed by a fresh
`StateManager` (no bowler recorded yet), every transition flag stays
unset: `is_new_bowler`, `is_new_over`, `is_strike_change`, `is_new_batter`
are all false and `new_batter_name` is `none`. -/
theorem C9_first_ball_flags (bt bw : String) (t : ℤ) (b : BallEvent) :
    ((initManager bt bw t).update b).state.is_new_bowler = false ∧
    ((initManager bt bw t).update b).state.is_new_over = false ∧
    ((initManager bt bw t).update b).state.is_strike_change = false ∧
    ((initManager bt bw t).update b).state.is_new_batter = false ∧
    ((initManager bt bw t).update b).state.new_batter_name = none :=
  ⟨rfl, rfl, rfl, rfl, rfl⟩

/-- A chase state needing exactly 30 runs (target 230, score 200/2 in the
middle overs). -/
def chase30 : MatchState :=
  { batting_team := "T", bowling_team := "U", target := 230,
    total_runs := 200, total_balls_bowled := 60, overs_completed := 10,
    wickets := 2 }

/-- The same chase but needing 31 runs (target 231): phase is `middle`,
not `death`. -/
def chase31 : MatchState := { chase30 with target := 231 }

/-- Claim C4: a wide bowled to a chasing team needing exactly 30 runs is
classified `extra_gift`; a wide with 31 runs needed outside the death
phase is NOT `extra_gift` (it falls through to a lower-priority branch). -/
theorem C4_extra_gift_threshold (s : MatchState) (b : BallEvent)
    (hw : b.extras_type = some wideT) (he : 0 < b.extras)
    (hnw : b.is_wicket = false) :
    (s.runs_needed = 30 →
      classify_branch s b = NarrativeBranch.extra_gift) ∧
    (s.runs_needed = 31 ∧ s.match_phase ≠ "death" →
      classify_branch s b ≠ NarrativeBranch.extra_gift) := by
  constructor
  · intro h30
    have htarget : 0 < s.target := by
      unfold MatchState.runs_needed at h30
      omega
    simp [classify_branch, hnw, hw, he, htarget, h30]
  · rintro ⟨h31, hphase⟩
    have hneed : ¬ (0 < s.target ∧ s.runs_needed ≤ 30) := by
      rintro ⟨-, hle⟩
      omega
    simp only [classify_branch, hnw, Bool.false_eq_true, if_false]
    rw [if_neg]
    · split_ifs <;> simp
    · rintro ⟨-, hc2⟩
      rcases hc2 with hc2 | hc2
      · exact hneed hc2
      · exact hphase hc2

/-- Witness for C4 at concrete chase states: a wide with exactly 30 needed
is `extra_gift`; with 31 needed in the middle overs it is not. -/
theorem C4_extra_gift_threshold_witness :
    classify_branch chase30 wideBall = NarrativeBranch.extra_gift ∧
    classify_branch chase31 wideBall ≠ NarrativeBranch.extra_gift :=
  ⟨(C4_extra_gift_threshold chase30 wideBall rfl (by decide) rfl).1
      (by decide),
   (C4_extra_gift_threshold chase31 wideBall rfl (by decide) rfl).2
      ⟨by decide, by decide⟩⟩

/-- A tight chase: 20 needed off the last 12 balls (target 20, score 0,
108 legal balls bowled). -/
def tightChase : MatchState :=
  { batting_team := "T", bowling_team := "U", target := 20,
    total_balls_bowled := 108 }

/-- A leg-bye worth one extra: not a wide or no-ball. -/
def legbyeBall : BallEvent :=
  { batter := "A", bowler := "X", runs := 0, extras := 1,
    extras_type := some ("legbye") }

/-- Claim C7, evaluated at the failing input: a leg-bye (not a wide or
no-ball, not a boundary/six/wicket) with 12 balls remaining and 20 runs
needed.  The claim says only wide/no-ball extras trigger the pivot here;
the source checks `ball.extras > 0` without looking at `extras_type`, so
the leg-bye IS reported as a pivot. -/
theorem C7_legbye_pivot :
    legbyeBall.is_boundary = false ∧ legbyeBall.is_six = false ∧
    legbyeBall.is_wicket = false ∧
    legbyeBall.extras_type = some ("legbye") ∧
    tightChase.balls_remaining ≤ 12 ∧ tightChase.runs_needed ≤ 20 ∧
    detect_pivot tightChase legbyeBall = true :=
  ⟨rfl, rfl, rfl, rfl, by decide, by decide, by decide⟩

/-- Claim-side reading of C10's parse condition: the overs string splits
on "." into exactly two fields and both parse as Python integers. -/
def parsesAsTwoInts (s : String) : Bool :=
  match splitDot s with
  | [a, b] => (pyIntParse a).isSome && (pyIntParse b).isSome
  | _ => false

/-- A fall-of-wicket entry with a given number and overs string. -/
def fowEntry (i : ℕ) (ov : String) : FallOfWicket :=
  { wicket_number := i, batter := "A", batter_runs := 0, team_score := 0,
    overs := ov, bowler := "X" }

/-- Three wickets down at 20 balls, where the 3rd-most-recent entry's
overs string is the three-field "1.2.3". -/
def collapse3State : MatchState :=
  { batting_team := "T", bowling_team := "U", target := 0, wickets := 3,
    total_balls_bowled := 20,
    fall_of_wickets :=
      [fowEntry 1 ("1.2.3"), fowEntry 2 ("2.1"), fowEntry 3 ("2.3")] }

/-- Counterexample to Claim C10 as stated: "1.2.3" does not parse as two
dot-separated integers, so the claim requires `is_collapse = false`; the
source takes `parts[0]` and `parts[1]` of the split, ignoring the extra
field, computes 1*6+2 = 8 balls, and with 20 - 8 = 12 ≤ 18 returns
`true`. -/
theorem C10_collapse_counterexample :
    parsesAsTwoInts ("1.2.3") = false ∧
    collapse3State.fall_of_wickets.reverse.get? 2 =
      some (fowEntry 1 ("1.2.3")) ∧
    collapse3State.is_collapse = true :=
  ⟨by decide, rfl, by decide⟩

/-- The amended C10, written from its words: false when fewer than 3
wickets have fallen or fewer than 3 fall-of-wicket entries exist; false
when the 3rd-most-recent entry's overs string does not split into at least
two dot-separated fields whose first two both parse as integers (instead
of raising); otherwise true exactly when total legal balls bowled minus
the ball count reconstructed from those first two fields is ≤ 18 (fields
beyond the first two are ignored). -/
def collapseSpec (s : MatchState) : Bool :=
  if s.wickets < 3 ∨ s.fall_of_wickets.length < 3 then false
  else
    match s.fall_of_wickets.reverse.get? 2 with
    | none => false
    | some fow =>
        match splitDot fow.overs with
        | p0 :: p1 :: _ =>
            match pyIntParse p0, pyIntParse p1 with
            | some a, some b =>
                (s.total_balls_bowled : ℤ) - (a * 6 + b) ≤ 18
            | _, _ => false
        | _ => false

/-- Claim C10 (amended): `is_collapse` is a total computation agreeing
everywhere with `collapseSpec` — never raising, returning false on missing
wickets or unparsable first-two fields, and otherwise applying the ≤ 18
ball-span test. -/
theorem C10_is_collapse_total (s : MatchState) :
    s.is_collapse = collapseSpec s := by
  unfold MatchState.is_collapse collapseSpec MatchState.recentWicketCluster
  by_cases h3 : s.fall_of_wickets.length < 3
  · simp [h3]
  · by_cases hwk : s.wickets < 3
    · have : ¬ 3 ≤ s.wickets := by omega
      simp [h3, hwk, this]
    · have h3' : 3 ≤ s.wickets := by omega
      simp [h3, hwk, h3']

/-! ### Properties of the binary64 model needed for C8 -/

theorem bitLenAux_zero (fuel : ℕ) : bitLenAux fuel 0 = 0 := by
  cases fuel <;> simp [bitLenAux]

theorem bitLenAux_bounds :
    ∀ fuel n : ℕ, n ≤ fuel → 1 ≤ n →
      2 ^ (bitLenAux fuel n - 1) ≤ n ∧ n < 2 ^ bitLenAux fuel n := by
  intro fuel
  induction fuel with
  | zero => intro n hn h1; omega
  | succ fuel ih =>
      intro n hn h1
      have hne : n ≠ 0 := by omega
      simp only [bitLenAux, if_neg hne]
      by_cases h2 : n / 2 = 0
      · have hn1 : n = 1 := by omega
        subst hn1
        norm_num [bitLenAux_zero]
      · have hh2 : n / 2 ≤ fuel := by omega
        have hh1 : 1 ≤ n / 2 := by omega
        obtain ⟨l, u⟩ := ih (n / 2) hh2 hh1
        set k := bitLenAux fuel (n / 2) with hk
        have hk1 : 1 ≤ k := by
          by_contra hc
          have hkz : k = 0 := by omega
          rw [hkz] at u
          simp at u
          omega
        have e1 : 2 ^ k = 2 ^ (k - 1) * 2 := by
          conv_lhs => rw [← Nat.sub_add_cancel hk1]
          rw [pow_succ]
        have e2 : 2 ^ (k + 1) = 2 ^ k * 2 := pow_succ 2 k
        have hdm := Nat.div_add_mod n 2
        have hkk : k + 1 - 1 = k := by omega
        rw [hkk]
        omega

/-- `2 ^ (bitLen n - 1) ≤ n < 2 ^ bitLen n` for `n ≥ 1`. -/
theorem bitLen_bounds (n : ℕ) (h1 : 1 ≤ n) :
    2 ^ (bitLen n - 1) ≤ n ∧ n < 2 ^ bitLen n :=
  bitLenAux_bounds n n le_rfl h1

theorem pow2_eq_zpow (z : ℤ) : pow2 z = (2 : ℚ) ^ z := by
  cases z with
  | ofNat k =>
      show ((2 ^ k : ℕ) : ℚ) = (2 : ℚ) ^ (k : ℤ)
      rw [zpow_natCast]
      push_cast
      rfl
  | negSucc k =>
      show 1 / ((2 ^ (k + 1) : ℕ) : ℚ) = (2 : ℚ) ^ (Int.negSucc k)
      rw [zpow_negSucc, one_div]
      congr 1
      push_cast
      rfl

theorem pow2_pos (z : ℤ) : 0 < pow2 z := by
  rw [pow2_eq_zpow]
  positivity

theorem pow2_mul_pow2 (a b : ℤ) : pow2 a * pow2 b = pow2 (a + b) := by
  rw [pow2_eq_zpow, pow2_eq_zpow, pow2_eq_zpow,
    ← zpow_add₀ (by norm_num : (2:ℚ) ≠ 0)]

theorem rat_floor_eq_intFloor (q : ℚ) : q.floor = ⌊q⌋ := rfl

theorem roundHalfEven_ge_one (x : ℚ) (hx : 1 ≤ x) : 1 ≤ roundHalfEven x := by
  unfold roundHalfEven
  have hf : (1 : ℤ) ≤ x.floor := by
    rw [rat_floor_eq_intFloor]
    exact Int.le_floor.mpr (by exact_mod_cast hx)
  dsimp only
  split_ifs <;> omega

theorem qabs_of_nonneg (q : ℚ) (h : 0 ≤ q) : qabs q = q := by
  unfold qabs
  rw [if_neg (not_lt.mpr h)]

/-- The chosen exponent bracket from below: a positive rational is at
least `2 ^ (bitLen num - bitLen den - 1)`. -/
theorem pow2_e1_sub_one_le (q : ℚ) (hq : 0 < q) :
    pow2 ((bitLen q.num.natAbs : ℤ) - (bitLen q.den : ℤ) - 1) ≤ q := by
  have hnum : 0 < q.num := Rat.num_pos.mpr hq
  have hN1 : 1 ≤ q.num.natAbs := Int.natAbs_pos.mpr (ne_of_gt hnum)
  have hD1 : 1 ≤ q.den := q.pos
  obtain ⟨lN, uN⟩ := bitLen_bounds _ hN1
  obtain ⟨lD, uD⟩ := bitLen_bounds _ hD1
  have hLN1 : 1 ≤ bitLen q.num.natAbs := by
    rcases Nat.eq_zero_or_pos (bitLen q.num.natAbs) with h0 | h0
    · rw [h0, pow_zero] at uN
      omega
    · exact h0
  have hnatAbs : (q.num.natAbs : ℤ) = q.num := Int.natAbs_of_nonneg hnum.le
  have hqeq : q = (q.num.natAbs : ℚ) / (q.den : ℚ) := by
    conv_rhs =>
      rw [show ((q.num.natAbs : ℕ) : ℚ) = ((q.num : ℤ) : ℚ) from by
        rw [← hnatAbs]; exact (Int.cast_natCast _).symm]
    exact (Rat.num_div_den q).symm
  have hDpos : (0 : ℚ) < (q.den : ℚ) := by
    exact_mod_cast hD1
  have hD2 : (q.den : ℚ) < (2 : ℚ) ^ (bitLen q.den : ℤ) := by
    rw [zpow_natCast]
    exact_mod_cast uD
  have hN2 : (2 : ℚ) ^ ((bitLen q.num.natAbs : ℤ) - 1) ≤
      (q.num.natAbs : ℚ) := by
    have hcast : ((bitLen q.num.natAbs : ℤ) - 1) =
        ((bitLen q.num.natAbs - 1 : ℕ) : ℤ) := by
      omega
    rw [hcast, zpow_natCast]
    exact_mod_cast lN
  have key : (2 : ℚ) ^ ((bitLen q.num.natAbs : ℤ) - (bitLen q.den : ℤ) - 1) *
      (q.den : ℚ) ≤ (q.num.natAbs : ℚ) := by
    calc (2 : ℚ) ^ ((bitLen q.num.natAbs : ℤ) - (bitLen q.den : ℤ) - 1) *
          (q.den : ℚ)
        ≤ (2 : ℚ) ^ ((bitLen q.num.natAbs : ℤ) - (bitLen q.den : ℤ) - 1) *
          (2 : ℚ) ^ (bitLen q.den : ℤ) := by
          apply mul_le_mul_of_nonneg_left hD2.le (by positivity)
      _ = (2 : ℚ) ^ ((bitLen q.num.natAbs : ℤ) - 1) := by
          rw [← zpow_add₀ (by norm_num : (2:ℚ) ≠ 0)]
          congr 1
          ring
      _ ≤ (q.num.natAbs : ℚ) := hN2
  calc pow2 ((bitLen q.num.natAbs : ℤ) - (bitLen q.den : ℤ) - 1)
      = (2 : ℚ) ^ ((bitLen q.num.natAbs : ℤ) - (bitLen q.den : ℤ) - 1) :=
        pow2_eq_zpow _
    _ ≤ (q.num.natAbs : ℚ) / (q.den : ℚ) := (le_div_iff₀ hDpos).mpr key
    _ = q := hqeq.symm

/-- Rounding a positive rational to binary64 yields a positive value. -/
theorem fl_pos (q : ℚ) (hq : 0 < q) : 0 < fl q := by
  unfold fl
  rw [if_neg (ne_of_gt hq)]
  dsimp only
  rw [qabs_of_nonneg q hq.le, if_neg (not_lt.mpr hq.le)]
  have hE : pow2 (if pow2 ((bitLen q.num.natAbs : ℤ) - (bitLen q.den : ℤ)) ≤ q
      then (bitLen q.num.natAbs : ℤ) - (bitLen q.den : ℤ)
      else (bitLen q.num.natAbs : ℤ) - (bitLen q.den : ℤ) - 1) ≤ q := by
    split_ifs with hc
    · exact hc
    · exact pow2_e1_sub_one_le q hq
  set E : ℤ := if pow2 ((bitLen q.num.natAbs : ℤ) - (bitLen q.den : ℤ)) ≤ q
      then (bitLen q.num.natAbs : ℤ) - (bitLen q.den : ℤ)
      else (bitLen q.num.natAbs : ℤ) - (bitLen q.den : ℤ) - 1 with hEdef
  have hscaled : (1 : ℚ) ≤ q * pow2 (52 - E) := by
    have h1 : pow2 E * pow2 (52 - E) ≤ q * pow2 (52 - E) :=
      mul_le_mul_of_nonneg_right hE (pow2_pos _).le
    have h2 : pow2 E * pow2 (52 - E) = pow2 52 := by
      rw [pow2_mul_pow2]
      congr 1
      ring
    have h3 : (1 : ℚ) ≤ pow2 52 := by
      rw [pow2_eq_zpow]
      norm_num
    linarith
  have hm : 1 ≤ roundHalfEven (q * pow2 (52 - E)) :=
    roundHalfEven_ge_one _ hscaled
  have hmq : (0 : ℚ) < (roundHalfEven (q * pow2 (52 - E)) : ℚ) := by
    exact_mod_cast lt_of_lt_of_le zero_lt_one hm
  exact mul_pos hmq (pow2_pos _)

/-- The float `n / 6` for a natural `n` is nonpositive exactly when
`n = 0`. -/
theorem fdiv_nat6_nonpos_iff (n : ℕ) : (fdiv (n : ℚ) 6 ≤ 0) ↔ n = 0 := by
  constructor
  · intro h
    by_contra hne
    have h1 : (0:ℚ) < (n : ℚ) := by exact_mod_cast Nat.pos_of_ne_zero hne
    have h2 : (0:ℚ) < (n : ℚ) / 6 := by positivity
    exact absurd h (not_le.mpr (fl_pos _ h2))
  · intro h
    subst h
    norm_num [fdiv, fl]

/-- A chase needing 77 off the last 60 balls (target 77, score 0, 60
legal balls bowled). -/
def chase77 : MatchState :=
  { batting_team := "T", bowling_team := "U", target := 77,
    total_balls_bowled := 60 }

/-- A six off the bat. -/
def sixBall : BallEvent :=
  { batter := "A", bowler := "X", runs := 6, is_six := true }

set_option maxRecDepth 100000 in
/-- Counterexample to Claim C8 as stated: with 77 needed off 60 balls a
legal six is hit (total ball runs 6 > 1).  Read in exact decimal
arithmetic — as the claim does — the reconstructed pre-ball rate is
`round(83 / (61/6), 1) = 8.2` and the after-ball rate is
`round(77 / 10, 2) = 7.7`, a difference of exactly 0.5, so the claim
demands emission.  The program compares binary64 doubles:
`abs(8.2 - 7.7)` is `0.4999999999999991… < 0.5` and it returns `None`. -/
theorem C8_half_boundary_counterexample :
    1 < sixBall.runs + sixBall.extras ∧
    sixBall.isLegal = true ∧
    chase77.runs_needed = 77 ∧
    chase77.balls_remaining = 60 ∧
    pyRound (((77 : ℚ) + 6) / (((60 : ℚ) + 1) / 6)) 1 -
        pyRound ((77 : ℚ) / ((60 : ℚ) / 6)) 2 = 1/2 ∧
    calculate_equation_shift chase77 sixBall = none :=
  ⟨by decide, rfl, by decide, by decide,
   by with_unfolding_all rfl, by with_unfolding_all rfl⟩

/-- Claim C8 (amended): `calculate_equation_shift` returns a value only
when this ball's total runs (off bat + extras) exceed 1; it reconstructs
the pre-ball required rate by adding back this ball's runs and, for legal
deliveries only, one ball to the remaining-ball count; and it emits
exactly when the *binary64* difference of the two rounded rates is at
least 0.5.  Because the rates are doubles, a pair whose decimal values
differ by exactly 0.5 may fail to emit when the floating-point difference
falls just below 0.5 (e.g. 8.2 − 7.7).  (The result also needs at least
one ball in the reconstructed count; the emitted payload is precisely the
pair of rates in the "From X per over down to Y" message.) -/
theorem C8_equation_shift_float (s : MatchState) (b : BallEvent) :
    ((calculate_equation_shift s b).isSome = true ↔
      (1 < b.runs + b.extras ∧
       0 < s.balls_remaining + (if b.isLegal then 1 else 0) ∧
       1/2 ≤ qabs (fsub
          (pyRoundFloat (fdiv
            (((s.runs_needed + ((b.runs + b.extras : ℕ) : ℤ) : ℤ) : ℚ))
            (fdiv (((s.balls_remaining +
              (if b.isLegal then 1 else 0) : ℕ) : ℚ)) 6)) 1)
          s.rrr))) ∧
    (calculate_equation_shift s b = none ∨
      calculate_equation_shift s b =
        some (pyRoundFloat (fdiv
          (((s.runs_needed + ((b.runs + b.extras : ℕ) : ℤ) : ℤ) : ℚ))
          (fdiv (((s.balls_remaining +
            (if b.isLegal then 1 else 0) : ℕ) : ℚ)) 6)) 1,
          s.rrr)) := by
  simp only [calculate_equation_shift]
  generalize (if b.isLegal then (1:ℕ) else 0) = L
  split_ifs with h1 h2 h3
  · refine ⟨?_, Or.inl rfl⟩
    simp only [Option.isSome_none, Bool.false_eq_true, false_iff]
    rintro ⟨hlt, -, -⟩
    omega
  · refine ⟨?_, Or.inl rfl⟩
    simp only [Option.isSome_none, Bool.false_eq_true, false_iff]
    rintro ⟨-, hpos, -⟩
    have h0 := (fdiv_nat6_nonpos_iff _).mp h2
    omega
  · refine ⟨?_, Or.inl rfl⟩
    simp only [Option.isSome_none, Bool.false_eq_true, false_iff]
    rintro ⟨-, -, hge⟩
    exact absurd hge (not_le.mpr h3)
  · refine ⟨?_, Or.inr rfl⟩
    simp only [Option.isSome_some, true_iff]
    refine ⟨by omega, ?_, not_lt.mp h3⟩
    rcases Nat.eq_zero_or_pos (s.balls_remaining + L) with hz | hp
    · exact absurd ((fdiv_nat6_nonpos_iff _).mpr hz) h2
    · exact hp

set_option maxRecDepth 10000 in
/-- Claim C6, evaluated on the pipeline at a concrete innings: three fours
build a 12-run opening stand (> 10), then the stand is broken by a wicket.
`update` resets `partnership_runs` to 0 *before* `analyze` reads it, so
the partnership-broken fragment is absent from the context notes — even
though the triggering condition (stand just broken of size > 10) held.
The last conjunct shows the fragment would have been emitted had the
pre-reset partnership size still been visible to `_build_context`. -/
theorem C6_partnership_note :
    (replay "T" "U" 0 [fourBall, fourBall, fourBall]).state.partnership_runs
        = 12 ∧
    ((replay "T" "U" 0 [fourBall, fourBall, fourBall]).update
        wicketBall).state.partnership_runs = 0 ∧
    containsSub
      (analyze
        ((replay "T" "U" 0 [fourBall, fourBall, fourBall]).update
          wicketBall).state wicketBall).context_notes
      ("stand broken") = false ∧
    containsSub
      (String.intercalate (". ")
        (noteWicket
          { ((replay "T" "U" 0 [fourBall, fourBall, fourBall]).update
              wicketBall).state with partnership_runs := 12 }
          wicketBall))
      ("stand broken") = true :=
  ⟨rfl, rfl, by with_unfolding_all rfl, by with_unfolding_all rfl⟩

end Cricvox
